import Mathlib

/-!
# wandrs/http: response wrapper, status translation, route parameters

A shallow embedding of the Go package `http` of the repository:

* `status.go`   : `ErrorToAPIStatus`, `(*response).APIError`
* `response.go` : the response wrapper with write tracking and a logger
* `http.go`     : the response wrapper without write tracking
* `urlparam.go` : `Params`, `ParamsInt`, `ParamsInt64`

Go strings are Lean strings, machine integers are `Int`/`Nat` with explicit
wrap-around where the code can overflow, and a Go panic is the value `none`.
-/

set_option linter.dupNamespace false

namespace GoHttp

/-! ## Data model: `metav1.Status` -/

/-- The `metav1.TypeMeta` part of a status object. -/
structure TypeMeta where
  Kind : String := ""
  APIVersion : String := ""
deriving DecidableEq, Repr

/-- The `metav1.ListMeta` part of a status object. -/
structure ListMeta where
  SelfLink : String := ""
  ResourceVersion : String := ""
  Continue : String := ""
  RemainingItemCount : Option Int := none
deriving DecidableEq, Repr

/-- One `metav1.StatusCause`. -/
structure StatusCause where
  CauseType : String := ""
  Message : String := ""
  Field : String := ""
deriving DecidableEq, Repr

/-- The `metav1.StatusDetails` object; `RetryAfterSeconds` is an `int32`. -/
structure StatusDetails where
  Name : String := ""
  Group : String := ""
  Kind : String := ""
  UID : String := ""
  Causes : List StatusCause := []
  RetryAfterSeconds : Int := 0
deriving DecidableEq, Repr

/-- The `metav1.Status` object; `Code` is an `int32`, `Details` a pointer that may be nil. -/
structure Status where
  TypeMeta : TypeMeta := {}
  ListMeta : ListMeta := {}
  Status : String := ""
  Message : String := ""
  Reason : String := ""
  Details : Option StatusDetails := none
  Code : Int := 0
deriving DecidableEq, Repr

/-- The constant `metav1.StatusSuccess`. -/
def StatusSuccess : String := "Success"

/-- The constant `metav1.StatusFailure`. -/
def StatusFailure : String := "Failure"

/-- The constant `metav1.StatusReasonUnknown`, the empty reason. -/
def StatusReasonUnknown : String := ""

/-- The constant `http.StatusOK`. -/
def StatusOK : Int := 200

/-- The constant `http.StatusNoContent`. -/
def StatusNoContent : Int := 204

/-- The constant `http.StatusInternalServerError`. -/
def StatusInternalServerError : Int := 500

/-! ## Data model: Go `error` values -/

/-- The `reflect.Kind` of the dynamic type of a value stored in an interface
(`Interface` and `Invalid` cannot occur there); each constructor is the Go
constant of that name, with an underscore to keep it apart from the Lean types. -/
inductive Kind where
  | Bool_ | Int_ | Uint_ | Float_ | Complex_ | Array_ | Chan_ | Func_ | Map_
  | Pointer_ | Slice_ | String_ | Struct_ | UnsafePointer_
deriving DecidableEq, Repr

/-- The kinds on which `reflect.Value.IsNil` is defined; on every other kind it panics. -/
def Kind.nilable : Kind → Bool
  | .Chan_ | .Func_ | .Map_ | .Pointer_ | .Slice_ | .UnsafePointer_ => true
  | _ => false

/-- A dynamic value held in a non-nil `error` interface: the kind of its type,
whether the value itself is nil (read only for nilable kinds), the text its
`Error()` method returns, and, when the type implements `statusError`, the
object its `Status()` method returns. -/
structure ErrValue where
  kind : Kind
  isNil : Bool := false
  Error : String := ""
  Status : Option Status := none
deriving DecidableEq, Repr

/-- A Go `error`: `none` is the nil interface. -/
abbrev error := Option ErrValue

/-- The call `reflect.ValueOf(err).IsNil()` on a non-nil interface: `none` is the panic
`reflect: call of reflect.Value.IsNil on ... Value`. -/
def reflectIsNil (v : ErrValue) : Option Bool :=
  if v.kind.nilable then some v.isNil else none

/-- The reports handed to `runtime.HandleError` by the translator. -/
inductive Anomaly where
  | wrongStatusField
  | notAStatus
deriving DecidableEq, Repr

/-- The function `ErrorToAPIStatus` of `status.go`; `none` is a panic. -/
def ErrorToAPIStatus (err : error) : Option Status :=
  match err with
  | none =>
    some { TypeMeta := { Kind := "Status", APIVersion := "v1" },
           Status := StatusSuccess, Code := StatusOK }
  | some t =>
    match reflectIsNil t with
    | none => none
    | some true =>
      some { TypeMeta := { Kind := "Status", APIVersion := "v1" },
             Status := StatusSuccess, Code := StatusOK }
    | some false =>
      match t.Status with
      | some st =>
        let status : Status :=
          if st.Status.length = 0 then { st with Status := StatusFailure } else st
        let status : Status :=
          if status.Status = StatusSuccess then
            (if status.Code = 0 then { status with Code := StatusOK } else status)
          else if status.Status = StatusFailure then
            (if status.Code = 0 then { status with Code := StatusInternalServerError } else status)
          else
            (if status.Code = 0 then { status with Code := StatusInternalServerError } else status)
        some { status with TypeMeta := { Kind := "Status", APIVersion := "v1" } }
      | none =>
        some { TypeMeta := { Kind := "Status", APIVersion := "v1" },
               Status := StatusFailure,
               Code := StatusInternalServerError,
               Reason := StatusReasonUnknown,
               Message := t.Error }

/-- The reports `ErrorToAPIStatus` hands to `runtime.HandleError` on the way. -/
def ErrorToAPIStatus.handled (err : error) : List Anomaly :=
  match err with
  | none => []
  | some t =>
    match reflectIsNil t with
    | some false =>
      match t.Status with
      | some st =>
        let flag := if st.Status.length = 0 then StatusFailure else st.Status
        if flag = StatusSuccess ∨ flag = StatusFailure then [] else [.wrongStatusField]
      | none => [.notAStatus]
    | _ => []

/-! ## The raw write sink and the standard library around it -/

/-- The table `http.StatusText` of the Go standard library. -/
def StatusText (code : Int) : String :=
  if code = 100 then "Continue"
  else if code = 101 then "Switching Protocols"
  else if code = 102 then "Processing"
  else if code = 103 then "Early Hints"
  else if code = 200 then "OK"
  else if code = 201 then "Created"
  else if code = 202 then "Accepted"
  else if code = 203 then "Non-Authoritative Information"
  else if code = 204 then "No Content"
  else if code = 205 then "Reset Content"
  else if code = 206 then "Partial Content"
  else if code = 207 then "Multi-Status"
  else if code = 208 then "Already Reported"
  else if code = 226 then "IM Used"
  else if code = 300 then "Multiple Choices"
  else if code = 301 then "Moved Permanently"
  else if code = 302 then "Found"
  else if code = 303 then "See Other"
  else if code = 304 then "Not Modified"
  else if code = 305 then "Use Proxy"
  else if code = 307 then "Temporary Redirect"
  else if code = 308 then "Permanent Redirect"
  else if code = 400 then "Bad Request"
  else if code = 401 then "Unauthorized"
  else if code = 402 then "Payment Required"
  else if code = 403 then "Forbidden"
  else if code = 404 then "Not Found"
  else if code = 405 then "Method Not Allowed"
  else if code = 406 then "Not Acceptable"
  else if code = 407 then "Proxy Authentication Required"
  else if code = 408 then "Request Timeout"
  else if code = 409 then "Conflict"
  else if code = 410 then "Gone"
  else if code = 411 then "Length Required"
  else if code = 412 then "Precondition Failed"
  else if code = 413 then "Request Entity Too Large"
  else if code = 414 then "Request URI Too Long"
  else if code = 415 then "Unsupported Media Type"
  else if code = 416 then "Requested Range Not Satisfiable"
  else if code = 417 then "Expectation Failed"
  else if code = 418 then "I\x27m a teapot"
  else if code = 421 then "Misdirected Request"
  else if code = 422 then "Unprocessable Entity"
  else if code = 423 then "Locked"
  else if code = 424 then "Failed Dependency"
  else if code = 425 then "Too Early"
  else if code = 426 then "Upgrade Required"
  else if code = 428 then "Precondition Required"
  else if code = 429 then "Too Many Requests"
  else if code = 431 then "Request Header Fields Too Large"
  else if code = 451 then "Unavailable For Legal Reasons"
  else if code = 500 then "Internal Server Error"
  else if code = 501 then "Not Implemented"
  else if code = 502 then "Bad Gateway"
  else if code = 503 then "Service Unavailable"
  else if code = 504 then "Gateway Timeout"
  else if code = 505 then "HTTP Version Not Supported"
  else if code = 506 then "Variant Also Negotiates"
  else if code = 507 then "Insufficient Storage"
  else if code = 508 then "Loop Detected"
  else if code = 510 then "Not Extended"
  else if code = 511 then "Network Authentication Required"
  else ""

/-- The function `strconv.Itoa`: the decimal text of an integer. -/
def Itoa (n : Int) : String := toString n

/-- Modelled from the spec: the raw write sink beneath the wrapper, an external
collaborator that is not under `src/` (section 3 and 6 of the spec: a status code that
is 0 until the first write and is sent once, a monotonic counter of the bytes sent,
and the response headers). `tracking` says whether the sink implements
`middleware.WrapResponseWriter`, that is, exposes its write state. -/
structure ResponseWriter where
  tracking : Bool := true
  header : List (String × String) := []
  wroteHeader : Bool := false
  code : Int := 0
  bytes : Nat := 0
  body : String := ""
deriving DecidableEq, Repr

namespace ResponseWriter

/-- The call `w.Header().Set(key, value)`: the entry replaces every earlier one of that key. -/
def HeaderSet (w : ResponseWriter) (key value : String) : ResponseWriter :=
  { w with header := (w.header.filter (fun kv => kv.1 ≠ key)) ++ [(key, value)] }

/-- The call `w.Header().Get(key)`. -/
def HeaderGet (w : ResponseWriter) (key : String) : Option String :=
  (w.header.find? (fun kv => kv.1 = key)).map (fun kv => kv.2)

/-- The call `w.WriteHeader(code)`: the first status code sent is the one that counts. -/
def WriteHeader (w : ResponseWriter) (code : Int) : ResponseWriter :=
  if w.wroteHeader then w else { w with wroteHeader := true, code := code }

/-- The call `w.Write(buf)`: sends status 200 first when none was sent, then the bytes. -/
def Write (w : ResponseWriter) (buf : String) : ResponseWriter :=
  let w := if w.wroteHeader then w else w.WriteHeader StatusOK
  { w with bytes := w.bytes + buf.utf8ByteSize, body := w.body ++ buf }

/-- A sink on which nothing has been sent: no status code, no bytes. -/
def Idle (w : ResponseWriter) : Prop :=
  w.wroteHeader = false ∧ w.code = 0 ∧ w.bytes = 0

instance (w : ResponseWriter) : Decidable w.Idle := by
  unfold Idle; exact inferInstance

end ResponseWriter

/-- The function `http.Error` of the Go standard library: a plain-text reply with the
given status code whose body is the message and a newline. -/
def httpError (w : ResponseWriter) (error : String) (code : Int) : ResponseWriter :=
  let w := w.HeaderSet "Content-Type" "text/plain; charset=utf-8"
  let w := w.HeaderSet "X-Content-Type-Options" "nosniff"
  let w := w.WriteHeader code
  w.Write (error ++ "\n")

/-! ## The render engine collaborator -/

/-- A value handed to the render engine as `interface{}`. -/
inductive Payload where
  | null
  | status (s : Status)
  | text (s : String)
  | other (tag : String)
deriving DecidableEq, Repr

/-- What a call of the render engine yields: the sink as the engine left it and the
error it returned (`none` is a nil error). -/
abbrev RenderResult := ResponseWriter × Option String

/-- The render engine `*render.Render`, an external collaborator: one function per method
the wrapper calls, each acting on the sink and returning an error or nil. A
`render.Engine` argument is named by a string. -/
structure Render where
  Render : ResponseWriter → String → Payload → RenderResult
  Data : ResponseWriter → Int → String → RenderResult
  HTML : ResponseWriter → Int → String → Payload → List String → RenderResult
  JSON : ResponseWriter → Int → Payload → RenderResult
  JSONP : ResponseWriter → Int → String → Payload → RenderResult
  Text : ResponseWriter → Int → String → RenderResult
  XML : ResponseWriter → Int → Payload → RenderResult

/-- A render method that encodes with `enc`: when the value cannot be encoded it returns
the failure and writes nothing, otherwise it sets the content type, sends the status
code and writes the encoded body. -/
def renderWith (enc : Payload → Option String) (contentType : String)
    (w : ResponseWriter) (status : Int) (v : Payload) : RenderResult :=
  match enc v with
  | none => (w, some "unsupported value")
  | some out => (((w.HeaderSet "Content-Type" contentType).WriteHeader status).Write out, none)

/-- A concrete encoder used to run the model: it knows texts and the status flag of a
status object, nothing else. -/
def sampleEncode : Payload → Option String
  | .text s => some s
  | .status s => some s.Status
  | _ => none

/-- A concrete render engine built from `renderWith` and `sampleEncode`. -/
def sampleRender : Render where
  Render := fun w _ v => renderWith sampleEncode "text/plain" w StatusOK v
  Data := fun w status v => renderWith sampleEncode "application/octet-stream" w status (.text v)
  HTML := fun w status _ v _ => renderWith sampleEncode "text/html" w status v
  JSON := fun w status v => renderWith sampleEncode "application/json" w status v
  JSONP := fun w status _ v => renderWith sampleEncode "application/javascript" w status v
  Text := fun w status v => renderWith sampleEncode "text/plain" w status (.text v)
  XML := fun w status v => renderWith sampleEncode "text/xml" w status v

/-! ## `response.go` and the `APIError` method of `status.go` -/

namespace ResponseGo

/-- The request wrapper held by the response of `response.go`, reduced to what the render
methods read from it: the chi log entry `middleware.GetLogEntry` finds in the request
context, if any, with the records its `Panic` method has received so far. -/
structure Request where
  LogEntry : Option (List String) := none
deriving DecidableEq, Repr

/-- The struct `response` of `response.go`. The logger `log` is the list of records it has
received through `log.Error(err, title)`, each the text handed to `fmt.Errorf` and the
title. -/
structure response where
  ResponseWriter : ResponseWriter
  req : Request := {}
  r : Render
  log : List (String × String) := []

/-- A dynamic value passed to `Error` as `interface{}`, told apart the way `Error` and
`fmt.Sprintf("%s", obj)` tell it apart: nil, a string, an error, or any other value
together with the text the `%s` verb prints for it. -/
inductive Content where
  | null
  | str (s : String)
  | err (e : ErrValue)
  | other (sprint : String)
deriving DecidableEq, Repr

/-- The call `fmt.Sprintf("%s", obj)`. -/
def Sprintf_s : Content → String
  | .null => "%!s(<nil>)"
  | .str s => s
  | .err e => e.Error
  | .other t => t

namespace response

/-- What every render method does with the error of the engine: when it is not nil and
the request has a log entry, `log.Panic(err.Error(), nil)` records it there. -/
def afterRender (w : response) (res : RenderResult) : response :=
  let w := { w with ResponseWriter := res.1 }
  match res.2 with
  | none => w
  | some err =>
    match w.req.LogEntry with
    | some records => { w with req := { w.req with LogEntry := some (records ++ [err]) } }
    | none => w

/-- The method `Render` of `response.go`. -/
def Render (w : response) (e : String) (data : Payload) : response :=
  w.afterRender (w.r.Render w.ResponseWriter e data)

/-- The method `Data` of `response.go`. -/
def Data (w : response) (status : Int) (v : String) : response :=
  w.afterRender (w.r.Data w.ResponseWriter status v)

/-- The method `HTML` of `response.go`. -/
def HTML (w : response) (status : Int) (name : String) (binding : Payload)
    (htmlOpt : List String) : response :=
  w.afterRender (w.r.HTML w.ResponseWriter status name binding htmlOpt)

/-- The method `JSON` of `response.go`. -/
def JSON (w : response) (status : Int) (v : Payload) : response :=
  w.afterRender (w.r.JSON w.ResponseWriter status v)

/-- The method `JSONP` of `response.go`. -/
def JSONP (w : response) (status : Int) (callback : String) (v : Payload) : response :=
  w.afterRender (w.r.JSONP w.ResponseWriter status callback v)

/-- The method `Text` of `response.go`. -/
def Text (w : response) (status : Int) (v : String) : response :=
  w.afterRender (w.r.Text w.ResponseWriter status v)

/-- The method `XML` of `response.go`. -/
def XML (w : response) (status : Int) (v : Payload) : response :=
  w.afterRender (w.r.XML w.ResponseWriter status v)

/-- The method `Error` of `response.go`; `none` is the panic of the type assertion
`contents[0].(string)` on a value that is not a string. -/
def Error (w : response) (status : Int) (contents : List Content) : Option response :=
  let v := StatusText status
  let args : Option (String × Content) :=
    match contents with
    | c0 :: c1 :: _ =>
      match c0 with
      | .str title => some (title, c1)
      | _ => none
    | [c0] => some ("", c0)
    | [] => some ("", .null)
  match args with
  | none => none
  | some (title, obj) =>
    let v := match obj, v with
      | .err e, _ => e.Error
      | o, _ => Sprintf_s o
    let w := if title.length > 0 then { w with log := w.log ++ [(v, title)] } else w
    some { w with ResponseWriter := httpError w.ResponseWriter v status }

/-- The method `Written` of `response.go`; `none` is the panic on a sink without write
tracking. -/
def Written (w : response) : Option Bool :=
  if w.ResponseWriter.tracking then some (decide (w.ResponseWriter.code > 0)) else none

/-- The method `Status` of `response.go`. -/
def Status (w : response) : Option Int :=
  if w.ResponseWriter.tracking then some w.ResponseWriter.code else none

/-- The method `BytesWritten` of `response.go`. -/
def BytesWritten (w : response) : Option Nat :=
  if w.ResponseWriter.tracking then some w.ResponseWriter.bytes else none

/-- The method `APIError` of `status.go`: the wrapper after the call and the code
returned; `none` when `ErrorToAPIStatus` panics. -/
def APIError (w : response) (err : error) : Option (response × Int) :=
  match ErrorToAPIStatus err with
  | none => none
  | some status =>
    let code := status.Code
    let w :=
      match status.Details with
      | some details =>
        if details.RetryAfterSeconds > 0 then
          { w with ResponseWriter :=
              w.ResponseWriter.HeaderSet "Retry-After" (Itoa details.RetryAfterSeconds) }
        else w
      | none => w
    if code = StatusNoContent then
      some ({ w with ResponseWriter := w.ResponseWriter.WriteHeader code }, code)
    else
      some (w.JSON code (.status status), code)

end response

end ResponseGo

/-! ## `http.go` -/

namespace HttpGo

/-- The request `*http.Request` held by the response of `http.go`, reduced to the route
parameters chi keeps in its context: keys and values in the order they were added. -/
structure Request where
  URLParams : List (String × String) := []
deriving DecidableEq, Repr

/-- The struct `response` of `http.go`. -/
structure response where
  ResponseWriter : ResponseWriter
  req : Request := {}
  r : Render

namespace response

/-- What every render method of `http.go` does with the error of the engine:
`http.Error(w, fmt.Sprintf("Render failed, reason: %v", err), 500)`. -/
def afterRender (w : response) (res : RenderResult) : response :=
  match res.2 with
  | none => { w with ResponseWriter := res.1 }
  | some err =>
    { w with ResponseWriter :=
        httpError res.1 ("Render failed, reason: " ++ err) StatusInternalServerError }

/-- The method `Render` of `http.go`. -/
def Render (w : response) (e : String) (data : Payload) : response :=
  w.afterRender (w.r.Render w.ResponseWriter e data)

/-- The method `Data` of `http.go`. -/
def Data (w : response) (status : Int) (v : String) : response :=
  w.afterRender (w.r.Data w.ResponseWriter status v)

/-- The method `HTML` of `http.go`. -/
def HTML (w : response) (status : Int) (name : String) (binding : Payload)
    (htmlOpt : List String) : response :=
  w.afterRender (w.r.HTML w.ResponseWriter status name binding htmlOpt)

/-- The method `JSON` of `http.go`. -/
def JSON (w : response) (status : Int) (v : Payload) : response :=
  w.afterRender (w.r.JSON w.ResponseWriter status v)

/-- The method `JSONP` of `http.go`. -/
def JSONP (w : response) (status : Int) (callback : String) (v : Payload) : response :=
  w.afterRender (w.r.JSONP w.ResponseWriter status callback v)

/-- The method `Text` of `http.go`. -/
def Text (w : response) (status : Int) (v : String) : response :=
  w.afterRender (w.r.Text w.ResponseWriter status v)

/-- The method `XML` of `http.go`. -/
def XML (w : response) (status : Int) (v : Payload) : response :=
  w.afterRender (w.r.XML w.ResponseWriter status v)

/-- The method `Error` of `http.go`. -/
def Error (w : response) (status : Int) (contents : List String) : response :=
  let v := StatusText status
  let v := match contents with
    | c0 :: _ => c0
    | [] => v
  { w with ResponseWriter := httpError w.ResponseWriter v status }

end response

end HttpGo

/-! ## `urlparam.go` and the library functions it calls

A Go string is a sequence of bytes. The functions below read a Lean string character
by character; a character above U+007F stands for a byte that is no ASCII digit, sign,
percent or hexadecimal digit, which is all these functions ask of it. -/

/-- The errors of `strconv`: `ErrSyntax`, `ErrRange`, and the bit size error. -/
inductive NumError where
  | ErrSyntax
  | ErrRange
  | ErrBitSize
deriving DecidableEq, Repr

/-- The constant `strconv.IntSize`: the size of `int` on a 64-bit platform. -/
def IntSize : Nat := 64

/-- The conversion `int64(u)` of an unsigned 64-bit value: two complement wrap-around. -/
def toInt64 (u : Nat) : Int :=
  if u % 2 ^ 64 < 2 ^ 63 then ((u % 2 ^ 64 : Nat) : Int) else ((u % 2 ^ 64 : Nat) : Int) - 2 ^ 64

/-- The negation `-n` of an `int64`, with wrap-around at the least value. -/
def negInt64 (n : Int) : Int :=
  toInt64 ((-n) % 2 ^ 64).toNat

/-- The conversion `int(v)` of an `int64` to the `int` of `IntSize` bits. -/
def toInt (v : Int) : Int :=
  let m := (v % 2 ^ IntSize).toNat
  if m < 2 ^ (IntSize - 1) then (m : Int) else (m : Int) - 2 ^ IntSize

/-- The digit loop of `strconv.ParseUint` for base 10 over the bytes left, from the
value `n` read so far: a digit is `0` to `9`; a letter is a digit of 10 or more, which
base 10 refuses like any other byte. -/
def ParseUint.loop (maxVal : Nat) : List Char → Nat → Nat × Option NumError
  | [], n => (n, none)
  | c :: cs, n =>
    if 48 ≤ c.toNat ∧ c.toNat ≤ 57 then
      let d := c.toNat - 48
      if n ≥ (2 ^ 64 - 1) / 10 + 1 then (maxVal, some .ErrRange)
      else
        let n := (n * 10) % 2 ^ 64
        let n1 := (n + d) % 2 ^ 64
        if n1 < n ∨ n1 > maxVal then (maxVal, some .ErrRange)
        else ParseUint.loop maxVal cs n1
    else (0, some .ErrSyntax)

/-- The function `strconv.ParseUint(s, 10, bitSize)` on the bytes of `s`. -/
def ParseUint (s : List Char) (bitSize : Nat) : Nat × Option NumError :=
  if s = [] then (0, some .ErrSyntax)
  else
    let bitSize := if bitSize = 0 then IntSize else bitSize
    if bitSize > 64 then (0, some .ErrBitSize)
    else ParseUint.loop (2 ^ bitSize - 1) s 0

/-- The function `strconv.ParseInt(s, 10, bitSize)`: the value and the error returned
(`none` is a nil error). -/
def ParseInt (s : String) (bitSize : Nat) : Int × Option NumError :=
  match s.data with
  | [] => (0, some .ErrSyntax)
  | c :: cs =>
    let neg := decide (c = '-')
    let rest := if c = '+' ∨ c = '-' then cs else c :: cs
    let res := ParseUint rest bitSize
    let un := res.1
    let err := res.2
    if err ≠ none ∧ err ≠ some .ErrRange then (0, err)
    else
      let bitSize := if bitSize = 0 then IntSize else bitSize
      let cutoff := 2 ^ (bitSize - 1)
      if neg = false ∧ un ≥ cutoff then (toInt64 (cutoff - 1), some .ErrRange)
      else if neg = true ∧ un > cutoff then (negInt64 (toInt64 cutoff), some .ErrRange)
      else
        let n := toInt64 un
        (if neg then negInt64 n else n, none)

/-- The test `ishex` of `net/url`. -/
def ishex (c : Char) : Bool :=
  (48 ≤ c.toNat ∧ c.toNat ≤ 57) ∨ (97 ≤ c.toNat ∧ c.toNat ≤ 102) ∨ (65 ≤ c.toNat ∧ c.toNat ≤ 70)

/-- The function `unhex` of `net/url`. -/
def unhex (c : Char) : Nat :=
  if 48 ≤ c.toNat ∧ c.toNat ≤ 57 then c.toNat - 48
  else if 97 ≤ c.toNat ∧ c.toNat ≤ 102 then c.toNat - 97 + 10
  else if 65 ≤ c.toNat ∧ c.toNat ≤ 70 then c.toNat - 65 + 10
  else 0

/-- The first pass of `url.PathUnescape`: every `%` is followed by two hexadecimal digits. -/
def unescapeOK : List Char → Bool
  | [] => true
  | [c] => decide (c ≠ '%')
  | [c, d] => decide (c ≠ '%') && unescapeOK [d]
  | c :: a :: b :: rest =>
    if c = '%' then ishex a && ishex b && unescapeOK rest
    else unescapeOK (a :: b :: rest)

/-- The second pass of `url.PathUnescape` on a checked text: `%XX` becomes the byte `XX`. -/
def unescapeBytes : List Char → List Char
  | c :: a :: b :: rest =>
    if c = '%' then Char.ofNat (unhex a * 16 + unhex b) :: unescapeBytes rest
    else c :: unescapeBytes (a :: b :: rest)
  | cs => cs

/-- The function `url.PathUnescape`: the text and whether an error is returned; with an
error the text is empty. -/
def PathUnescape (s : String) : String × Bool :=
  if unescapeOK s.data then (String.mk (unescapeBytes s.data), false) else ("", true)

/-- The function `strings.TrimPrefix`. -/
def TrimPrefix (s pre : String) : String :=
  if pre.data.isPrefixOf s.data then String.mk (s.data.drop pre.data.length) else s

namespace HttpGo

/-- The function `chi.URLParam`: the value added last under the key, or the empty text. -/
def URLParam (req : Request) (key : String) : String :=
  match req.URLParams.reverse.find? (fun kv => kv.1 = key) with
  | some kv => kv.2
  | none => ""

namespace response

/-- The method `Params` of `urlparam.go`. -/
def Params (w : response) (p : String) : String :=
  (PathUnescape (URLParam w.req (TrimPrefix p ":"))).1

/-- The method `ParamsInt` of `urlparam.go`. -/
def ParamsInt (w : response) (p : String) : Int :=
  toInt (ParseInt (w.Params p) 0).1

/-- The method `ParamsInt64` of `urlparam.go`. -/
def ParamsInt64 (w : response) (p : String) : Int :=
  (ParseInt (w.Params p) 64).1

end response

end HttpGo

/-! ## Concrete values used to run the definitions -/

/-- A typed nil pointer of a status-bearing error type, held in a non-nil interface. -/
def typedNilPointer : ErrValue :=
  { kind := .Pointer_, isNil := true, Error := "",
    Status := some { Status := "Failure", Code := 404 } }

/-- The error `context.DeadlineExceeded`: a value of the struct type
`context.deadlineExceededError`, which has no `Status()` method. -/
def deadlineExceeded : ErrValue :=
  { kind := .Struct_, Error := "context deadline exceeded" }

/-- The error `syscall.ENOENT`: a value of the unsigned integer type `syscall.Errno`. -/
def errnoENOENT : ErrValue :=
  { kind := .Uint_, Error := "no such file or directory" }

/-- An error of the string type `url.InvalidHostError`. -/
def invalidHostError : ErrValue :=
  { kind := .String_, Error := "invalid character \" \" in host name" }

/-- A status-bearing error whose type is a struct with value receivers, reporting the
flag `Failure` and no code. -/
def structStatusError : ErrValue :=
  { kind := .Struct_, Error := "not found", Status := some { Status := "Failure", Code := 0 } }

/-- A status-bearing pointer error reporting the flag `Pending`, which is neither
`Success` nor `Failure`, and no code. -/
def malformedFlagError : ErrValue :=
  { kind := .Pointer_, Error := "odd", Status := some { Status := "Pending", Code := 0 } }

/-- A status-bearing pointer error asking the client to retry after 30 seconds. -/
def retryError : ErrValue :=
  { kind := .Pointer_, Error := "too many requests",
    Status := some { Status := "Failure", Code := 429, Reason := "TooManyRequests",
                     Details := some { RetryAfterSeconds := 30 } } }

/-- The status `ErrorToAPIStatus` makes of `retryError`. -/
def retryStatus : Status :=
  { TypeMeta := { Kind := "Status", APIVersion := "v1" }, Status := "Failure", Code := 429,
    Reason := "TooManyRequests", Details := some { RetryAfterSeconds := 30 } }

/-- A status-bearing pointer error reporting the code 204. -/
def noContentError : ErrValue :=
  { kind := .Pointer_, Error := "no content", Status := some { Status := "Success", Code := 204 } }

/-- The status `ErrorToAPIStatus` makes of `noContentError`. -/
def noContentStatus : Status :=
  { TypeMeta := { Kind := "Status", APIVersion := "v1" }, Status := "Success", Code := 204 }

/-- A response of `response.go` on an idle tracking sink, with the sample engine and a
request that carries no log entry. -/
def sampleResponse : ResponseGo.response := { ResponseWriter := {}, r := sampleRender }

/-- A response of `http.go` on an idle sink with the sample engine and some route
parameters. -/
def sampleHttpResponse : HttpGo.response :=
  { ResponseWriter := {}, r := sampleRender,
    req := { URLParams := [("id", "abc"), ("n", "9223372036854775808"),
                           ("m", "-9223372036854775809"), ("k", "%31%32"),
                           ("q", "99999999999999999999x"), ("z", "-42")] } }

/-! ## Theorems: the status translator -/

/-- An empty Go string is one of length 0. -/
theorem length_ne_zero_of_ne_empty (s : String) (h : s ≠ "") : s.length ≠ 0 := by
  intro hl
  apply h
  exact String.ext (List.length_eq_zero.mp hl)

/-- C1: for a nil error, be it the nil interface or a typed nil (a nil pointer, or a
nil value of another kind that can be nil) held in a non-nil interface,
`ErrorToAPIStatus` returns the status with flag Success, code 200, empty reason, empty
message, no details, kind "Status" and apiVersion "v1". -/
theorem ErrorToAPIStatus_nil (err : error)
    (h : err = none ∨ ∃ t, err = some t ∧ t.kind.nilable = true ∧ t.isNil = true) :
    ErrorToAPIStatus err =
      some { TypeMeta := { Kind := "Status", APIVersion := "v1" }, Status := "Success",
             Code := 200, Reason := "", Message := "", Details := none } := by
  rcases h with h | ⟨t, ht, hk, hn⟩
  · subst h; rfl
  · subst ht
    simp [ErrorToAPIStatus, reflectIsNil, hk, hn, StatusSuccess, StatusOK]

/-- Witness of C1: a typed nil pointer of a status-bearing error type. -/
theorem ErrorToAPIStatus_nil_witness :
    (typedNilPointer.kind.nilable = true ∧ typedNilPointer.isNil = true) ∧
      ErrorToAPIStatus (some typedNilPointer) =
        some { TypeMeta := { Kind := "Status", APIVersion := "v1" }, Status := "Success",
               Code := 200, Reason := "", Message := "", Details := none } :=
  ⟨by decide, ErrorToAPIStatus_nil (some typedNilPointer)
    (Or.inr ⟨typedNilPointer, rfl, by decide, by decide⟩)⟩

/-- The nil check of `ErrorToAPIStatus` panics on every non-nil interface whose dynamic
type is of a kind that cannot be nil. -/
theorem ErrorToAPIStatus_panics_of_not_nilable (t : ErrValue) (hk : t.kind.nilable = false) :
    ErrorToAPIStatus (some t) = none := by
  simp [ErrorToAPIStatus, reflectIsNil, hk]

/-- Where the nil check completes, a non-nil error without `Status()` becomes the status
Failure, 500, reason Unknown, with the error text as message. -/
theorem ErrorToAPIStatus_of_nilable_without_status (t : ErrValue)
    (hk : t.kind.nilable = true) (hn : t.isNil = false) (hs : t.Status = none) :
    ErrorToAPIStatus (some t) =
      some { TypeMeta := { Kind := "Status", APIVersion := "v1" }, Status := StatusFailure,
             Code := 500, Reason := StatusReasonUnknown, Message := t.Error } := by
  simp [ErrorToAPIStatus, reflectIsNil, hk, hn, hs, StatusInternalServerError]

/-- C2, at the failing input `context.DeadlineExceeded`: a non-nil error of struct kind
without `Status()`; the nil check `reflect.ValueOf(err).IsNil()` panics and
`ErrorToAPIStatus` returns no status. -/
theorem ErrorToAPIStatus_deadlineExceeded :
    deadlineExceeded.Status = none ∧ reflectIsNil deadlineExceeded = none ∧
      ErrorToAPIStatus (some deadlineExceeded) = none := by
  decide

/-- Where the nil check completes, the code of a status-bearing error is kept when it is
not 0 and is 200 or 500 by the flag when it is 0. -/
theorem ErrorToAPIStatus_code_of_nilable (t : ErrValue) (st : Status)
    (hk : t.kind.nilable = true) (hn : t.isNil = false) (hs : t.Status = some st) :
    ∃ res, ErrorToAPIStatus (some t) = some res ∧
      (st.Code ≠ 0 → res.Code = st.Code) ∧
      (st.Code = 0 → st.Status = StatusSuccess → res.Code = 200) ∧
      (st.Code = 0 → (st.Status = StatusFailure ∨ st.Status = "") → res.Code = 500) := by
  obtain ⟨tm, lm, flag, msg, reason, details, code⟩ := st
  simp only [ErrorToAPIStatus, reflectIsNil, hk, hn, hs, if_true]
  refine ⟨_, rfl, ?_, ?_, ?_⟩
  · intro hc
    split_ifs <;> simp_all
  · intro hc hf
    subst hc hf
    have e1 : StatusSuccess.length ≠ 0 := by decide
    simp [e1, StatusOK]
  · intro hc hf
    subst hc
    have e2 : StatusFailure.length ≠ 0 := by decide
    have e3 : StatusFailure ≠ StatusSuccess := by decide
    rcases hf with hf | hf <;> subst hf <;> simp [e2, e3, StatusInternalServerError]

/-- C3, at the failing input `structStatusError`: a non-nil status-bearing error of
struct kind reporting flag Failure and code 0; the nil check panics and there is no
result whose code could be 500. -/
theorem ErrorToAPIStatus_structStatusError :
    structStatusError.Status = some { Status := "Failure", Code := 0 } ∧
      ErrorToAPIStatus (some structStatusError) = none := by
  decide

/-- C4, at the failing inputs: `ErrorToAPIStatus` panics in its nil check on a non-nil
error whose dynamic type is a struct, a string type or an integer type. -/
theorem ErrorToAPIStatus_raises :
    ErrorToAPIStatus (some deadlineExceeded) = none ∧
      ErrorToAPIStatus (some invalidHostError) = none ∧
      ErrorToAPIStatus (some errnoENOENT) = none := by
  decide

/-- C7 as stated fails: a pointer error reporting the flag "Pending" and no code gets the
code 500 and keeps the flag "Pending", which is not Failure. -/
theorem ErrorToAPIStatus_malformed_flag_counterexample :
    ErrorToAPIStatus (some malformedFlagError) =
        some { TypeMeta := { Kind := "Status", APIVersion := "v1" }, Status := "Pending",
               Code := 500 } ∧
      "Pending" ≠ StatusFailure := by
  decide

/-- C7 as amended: for every non-nil status-bearing error on which the nil check
completes and whose `Status()` reports a flag that is neither empty, Success nor
Failure, `ErrorToAPIStatus` returns that status with the flag unchanged, the code 500
in place of a code 0, kind "Status" and apiVersion "v1", and reports the anomaly. -/
theorem ErrorToAPIStatus_malformed_flag (t : ErrValue) (st : Status)
    (hk : t.kind.nilable = true) (hn : t.isNil = false) (hs : t.Status = some st)
    (h0 : st.Status ≠ "") (h1 : st.Status ≠ StatusSuccess) (h2 : st.Status ≠ StatusFailure) :
    ErrorToAPIStatus (some t) =
        some { st with TypeMeta := { Kind := "Status", APIVersion := "v1" },
                       Code := if st.Code = 0 then 500 else st.Code } ∧
      ErrorToAPIStatus.handled (some t) = [Anomaly.wrongStatusField] := by
  have hl : st.Status.length ≠ 0 := length_ne_zero_of_ne_empty _ h0
  obtain ⟨tm, lm, flag, msg, reason, details, code⟩ := st
  simp only at h0 h1 h2 hl
  constructor
  · simp only [ErrorToAPIStatus, reflectIsNil, hk, hn, hs, if_true]
    by_cases hc : code = 0 <;> simp [hl, h1, h2, hc, StatusInternalServerError]
  · simp [ErrorToAPIStatus.handled, reflectIsNil, hk, hn, hs, hl, h1, h2]

/-- Witness of C7 as amended: the pointer error reporting the flag "Pending". -/
theorem ErrorToAPIStatus_malformed_flag_witness :
    (malformedFlagError.kind.nilable = true ∧ malformedFlagError.isNil = false) ∧
      ErrorToAPIStatus (some malformedFlagError) =
          some { TypeMeta := { Kind := "Status", APIVersion := "v1" }, Status := "Pending",
                 Code := 500 } ∧
        ErrorToAPIStatus.handled (some malformedFlagError) = [Anomaly.wrongStatusField] :=
  ⟨by decide, ErrorToAPIStatus_malformed_flag malformedFlagError
    { Status := "Pending", Code := 0 } (by decide) (by decide) rfl
    (by decide) (by decide) (by decide)⟩

end GoHttp
